import Mathlib

/-!
Verification of the MCP STDIO-to-HTTP bridge (`bin/mcp-http-bridge.mjs`).

The development shallowly embeds the bridge's session/recovery state machine:

* `Json` models JavaScript JSON values (numbers as integers; the bridge never
  does arithmetic on them).  `JSON.parse` is an external runtime facility and
  is modelled as an explicit parameter `parse : String → Except String Json`
  (the `Except` error carries the exception message used in the bridge's
  `'Parse error: ' + e.message`).  All theorems quantify over `parse`;
  concrete evaluations use the table-based `demoParse` below.
* One HTTP round trip is driven by an `HttpEvent` (a response, a network
  error, or a timeout); a whole exchange is driven by a list of events that
  successive HTTP calls consume in order.
* `httpCall` embeds the response callback of `makeRequest` (session-header
  extraction, the 404 recovery guard, the 2xx success path and the error
  derivation chain); `runRequest` embeds `makeRequest` together with the
  recursion through `reinitializeAndRetry`; `handleLine` embeds the
  `rl.on('line')` dispatcher.
* Output written to stdout is modelled structurally by `Output`: one
  constructor for a forwarded upstream line and one for a locally
  synthesized JSON-RPC error object (`sendError`).
-/

namespace McpBridge

/-- JSON values as produced by `JSON.parse` (numbers restricted to integers;
all numeric literals the bridge manipulates are integral). -/
inductive Json where
  | null : Json
  | bool (b : Bool) : Json
  | num (n : Int) : Json
  | str (s : String) : Json
  | arr (elems : List Json) : Json
  | obj (fields : List (String × Json)) : Json
deriving Repr

/-- JavaScript truthiness of a JSON value (`undefined` is handled by the
`Option` layer at use sites). -/
def jsTruthy : Json → Bool
  | .null => false
  | .bool b => b
  | .num n => n != 0
  | .str s => s != ""
  | .arr _ => true
  | .obj _ => true

/-- Property access `j.k` on a parsed JSON value: a field of an object,
`undefined` (`none`) otherwise. -/
def getField (j : Json) (k : String) : Option Json :=
  match j with
  | .obj fields => (fields.find? (fun p => p.1 == k)).map (·.2)
  | _ => none

/-- Truthiness of a possibly-`undefined` value (`undefined` is falsy). -/
def jsTruthyO : Option Json → Bool
  | some v => jsTruthy v
  | none => false

mutual

/-- JavaScript string coercion of a JSON value, as applied by template
literals and `new Error(...)`: arrays render as their elements joined with
commas (with null elements rendered empty, per `Array.prototype.join`). -/
def jsToString : Json → String
  | .null => "null"
  | .bool true => "true"
  | .bool false => "false"
  | .num n => toString n
  | .str s => s
  | .obj _ => "[object Object]"
  | .arr xs => jsToStringList xs

/-- `Array.prototype.join(',')` over coerced elements. -/
def jsToStringList : List Json → String
  | [] => ""
  | [.null] => ""
  | [x] => jsToString x
  | .null :: y :: xs => "," ++ jsToStringList (y :: xs)
  | x :: y :: xs => jsToString x ++ "," ++ jsToStringList (y :: xs)

end

/-- The mutable session state of the bridge: `sessionId` / `isInitialized`
(lines 41-42 of the source). -/
structure BridgeState where
  sessionId : Option String
  isInitialized : Bool
deriving Repr, DecidableEq

/-- Truthiness of the `sessionId` variable (`null` and the empty string are
falsy in JavaScript). -/
def sessionTruthy : Option String → Bool
  | none => false
  | some s => s != ""

/-- An HTTP response as observed by the response callback: status code,
response headers, fully buffered body. -/
structure HttpResp where
  status : Nat
  headers : List (String × String)
  body : String
deriving Repr, DecidableEq

/-- The possible outcomes of one HTTP POST attempt, supplied by the
environment: a response, a network-level error (`req.on('error')`), or the
30-second timeout (`req.on('timeout')`). -/
inductive HttpEvent where
  | resp (r : HttpResp) : HttpEvent
  | netError (message : String) : HttpEvent
  | timeout : HttpEvent
deriving Repr, DecidableEq

/-- A JavaScript `Error` as rejected by `makeRequest`: its `message` and the
`errorCode` / `statusCode` properties attached on the HTTP-error path. -/
structure JsError where
  message : String
  errorCode : Option Json
  statusCode : Option Nat
deriving Repr

/-- One line written to stdout: either an upstream response line forwarded
verbatim (`console.log(line)`), or a locally synthesized JSON-RPC error
object (`sendError`) with its `error.code`, `error.message` and `id`. -/
inductive Output where
  | forwarded (line : String) : Output
  | errorLine (code : Json) (message : String) (id : Json) : Output
deriving Repr

/-- Whitespace as trimmed by JavaScript's `String.prototype.trim` (the
common cases; exotic Unicode space code points do not occur in the protocol
traffic being modelled). -/
def isJsSpace (c : Char) : Bool :=
  c = ' ' || c = '\t' || c = '\n' || c = '\r' || c = '\x0b' || c = '\x0c'

/-- JavaScript `s.trim()`: strip leading and trailing whitespace. -/
def jsTrim (s : String) : String :=
  String.mk (((s.data.dropWhile isJsSpace).reverse.dropWhile isJsSpace).reverse)

/-- Split a character list at newline characters (empty pieces kept). -/
def splitCharsNewline : List Char → List (List Char)
  | [] => [[]]
  | c :: cs =>
    match splitCharsNewline cs with
    | [] => [[c]]
    | l :: ls => if c = '\n' then [] :: l :: ls else (c :: l) :: ls

/-- JavaScript `s.split('\n')`. -/
def jsSplitNewline (s : String) : List String :=
  (splitCharsNewline s.data).map (fun l => String.mk l)

/-- JavaScript `s.substring(0, n)` (code-unit subtleties aside). -/
def jsTake (s : String) (n : Nat) : String :=
  String.mk (s.data.take n)

/-- Response-header lookup (`res.headers[k]`). -/
def headerLookup (hs : List (String × String)) (k : String) : Option String :=
  (hs.find? (fun p => p.1 == k)).map (·.2)

/-- Collapse a falsy (empty) string to `none`; used to model the `||` chains
over possibly-empty header values. -/
def truthyStr : Option String → Option String
  | some s => if s = "" then none else some s
  | none => none

/-- Lines 198-200: `res.headers['mcp-session-id'] || res.headers['Mcp-Session-Id']
|| res.headers['MCP-Session-ID']`, collapsed to its truthy value. -/
def extractSessionHeader (hs : List (String × String)) : Option String :=
  (truthyStr (headerLookup hs "mcp-session-id")).orElse (fun _ =>
    (truthyStr (headerLookup hs "Mcp-Session-Id")).orElse (fun _ =>
      truthyStr (headerLookup hs "MCP-Session-ID")))

/-- Lines 202-206: `if (sessionHeader && isInitialize) { sessionId = sessionHeader;
isInitialized = true; }` — run when the response arrives, before the status
code is inspected. -/
def applySessionExtraction (isInit : Bool) (hs : List (String × String))
    (st : BridgeState) : BridgeState :=
  match extractSessionHeader hs, isInit with
  | some s, true => { sessionId := some s, isInitialized := true }
  | _, _ => st

/-- `jsonRequest.method === 'initialize'` (line 175). -/
def isInitializeReq (req : Json) : Bool :=
  match getField req "method" with
  | some (.str "initialize") => true
  | _ => false

/-- Lines 229-248: the 2xx success path.  Trim the body; an empty trimmed
body produces no output; otherwise split on newlines, drop blank lines, and
forward each line that parses as JSON verbatim in order. -/
def successLines (parse : String → Except String Json) (body : String) : List Output :=
  let trimmedData := jsTrim body
  if trimmedData = "" then []
  else
    let lines := (jsSplitNewline trimmedData).filter (fun l => !(jsTrim l == ""))
    lines.filterMap (fun l =>
      match parse l with
      | .ok _ => some (.forwarded l)
      | .error _ => none)

/-- `errorResponse.code === 'rest_forbidden'` (line 263). -/
def isRestForbidden : Option Json → Bool
  | some (.str "rest_forbidden") => true
  | _ => false

/-- Lines 251-295: derivation of the JSON-RPC error for a non-2xx,
non-recovery response.  Mirrors the source's sequential reassignment of
`errorMessage` / `errorCode`, including every JS truthiness test.  The
catch block (lines 284-290) receives not only `JSON.parse` failures but
also the `TypeError` thrown at line 260 by `errorResponse.code` when the
body parses to the JSON value `null` (the only `JSON.parse` result whose
property access throws; every later field access in the `try` block is
guarded by a truthiness test or optional chaining).  Both routes into the
catch append the trimmed 200-character raw-body preview. -/
def httpErrorOf (parse : String → Except String Json) (status : Nat)
    (body : String) : JsError :=
  let errorMessage0 := "HTTP " ++ toString status
  let catchFallback : JsError :=
    let preview := jsTrim (jsTake body 200)
    { message := if preview = "" then errorMessage0 else errorMessage0 ++ ": " ++ preview
      errorCode := some (.num (-32000))
      statusCode := some status }
  match parse body with
  | .error _ => catchFallback
  | .ok .null => catchFallback
  | .ok errorResponse =>
    let m1 :=
      if jsTruthyO (getField errorResponse "code") && jsTruthyO (getField errorResponse "message") then
        if isRestForbidden (getField errorResponse "code") then
          if status = 401 then "Authentication failed: Invalid or expired JWT token"
          else "Forbidden: " ++ jsToString ((getField errorResponse "message").getD .null)
        else jsToString ((getField errorResponse "message").getD .null)
      else if jsTruthyO (getField errorResponse "error") then
        match getField ((getField errorResponse "error").getD .null) "message" with
        | some mv => if jsTruthy mv then jsToString mv else errorMessage0
        | none => errorMessage0
      else if jsTruthyO (getField errorResponse "message") then
        jsToString ((getField errorResponse "message").getD .null)
      else errorMessage0
    let c1 : Json :=
      if jsTruthyO (getField errorResponse "code") && jsTruthyO (getField errorResponse "message") then
        .num (-32000)
      else if jsTruthyO (getField errorResponse "error") then
        match getField ((getField errorResponse "error").getD .null) "code" with
        | some cv => if jsTruthy cv then cv else .num (-32000)
        | none => .num (-32000)
      else .num (-32000)
    let m2 :=
      match (getField errorResponse "data").bind (fun d => getField d "status") with
      | some sv => if jsTruthy sv then m1 ++ " (HTTP " ++ jsToString sv ++ ")" else m1
      | none => m1
    { message := m2, errorCode := some c1, statusCode := some status }

/-- Outcome of one HTTP call: either the call settles (`done`, with the
state after header extraction, the stdout lines it produced and the
resolution of its promise), or the 404 recovery guard fired (`recover`,
after which the source clears the session and runs `reinitializeAndRetry`). -/
inductive CallOut where
  | done (st : BridgeState) (out : List Output) (res : Except JsError Unit) : CallOut
  | recover : CallOut

/-- The response callback of `makeRequest` (lines 194-309) for one HTTP
attempt, driven by one `HttpEvent`. -/
def httpCall (parse : String → Except String Json) (isInit : Bool)
    (st : BridgeState) (e : HttpEvent) : CallOut :=
  match e with
  | .netError m => .done st [] (.error { message := m, errorCode := none, statusCode := none })
  | .timeout => .done st [] (.error { message := "Request timeout", errorCode := none, statusCode := none })
  | .resp r =>
    let st1 := applySessionExtraction isInit r.headers st
    if r.status = 404 ∧ sessionTruthy st1.sessionId = true ∧ isInit = false then
      .recover
    else if 200 ≤ r.status ∧ r.status < 300 then
      .done st1 (successLines parse r.body) (.ok ())
    else
      .done st1 [] (.error (httpErrorOf parse r.status r.body))

/-- The synthetic `initialize` request sent by `reinitializeAndRetry`
(lines 324-335). -/
def initRequest : Json :=
  .obj [("jsonrpc", .str "2.0"),
        ("method", .str "initialize"),
        ("params", .obj [("protocolVersion", .str "2024-11-05"),
                         ("clientInfo", .obj [("name", .str "mcp-http-bridge"),
                                              ("version", .str "1.0.0")])]),
        ("id", .num 0)]

/-- `error.errorCode || -32000`. -/
def errCodeOf (e : JsError) : Json :=
  match e.errorCode with
  | some c => if jsTruthy c then c else .num (-32000)
  | none => .num (-32000)

/-- `error.message || 'Request failed'`. -/
def errMsgOf (e : JsError) : String :=
  if e.message = "" then "Request failed" else e.message

/-- `jsonRequest.id !== undefined ? jsonRequest.id : null`. -/
def idOrNull (req : Json) : Json :=
  (getField req "id").getD .null

/-- The error object sent by the catch block of `reinitializeAndRetry`
(lines 347-353), using the original request's id. -/
def recoveryFailLine (originalRequest : Json) (e : JsError) : Output :=
  .errorLine (errCodeOf e)
    ("Session expired and re-initialization failed: " ++ e.message)
    (idOrNull originalRequest)

/-- Aggregate result of driving one request (and any recovery it triggers)
against a list of HTTP events: final session state, stdout lines in order,
the resolution of the outermost `makeRequest` promise, unconsumed events,
how many times `reinitializeAndRetry` was entered, and how many HTTP POST
attempts were made. -/
structure RunResult where
  state : BridgeState
  output : List Output
  result : Except JsError Unit
  rest : List HttpEvent
  recoveries : Nat
  calls : Nat
deriving Repr

/-- Artificial error used when the event list is exhausted (the environment
supplied no outcome for an attempted HTTP call). -/
def noResponseErr : JsError :=
  { message := "no response", errorCode := none, statusCode := none }

/-- `makeRequest` (lines 164-314) driven to completion: one HTTP attempt for
`req`; when the 404 recovery guard fires the source clears the session state
(lines 219-220) and runs `reinitializeAndRetry` (lines 319-356), whose body
— send the synthetic `initialize` starting from the cleared state, then
resend the original request, and on any failure emit one error line with the
original request's id and rethrow — is inlined here so that the recursion is
structural on the event list.  The stand-alone `reinitializeAndRetry` below
restates the inlined block and is proved to coincide with it.  The inner
`makeRequest initRequest` never fires the recovery guard (its `isInitialize`
is true), so its `CallOut.recover` arm is unreachable; it is mapped to an
aborted call. -/
def runRequest (parse : String → Except String Json) (req : Json)
    (st : BridgeState) : List HttpEvent → RunResult
  | [] => ⟨st, [], .error noResponseErr, [], 0, 1⟩
  | e :: rest =>
    match httpCall parse (isInitializeReq req) st e with
    | .done st1 out res => ⟨st1, out, res, rest, 0, 1⟩
    | .recover =>
      match rest with
      | [] =>
        ⟨⟨none, false⟩, [recoveryFailLine req noResponseErr], .error noResponseErr, [], 1, 2⟩
      | e2 :: rest2 =>
        match httpCall parse true ⟨none, false⟩ e2 with
        | .recover =>
          ⟨⟨none, false⟩, [recoveryFailLine req noResponseErr], .error noResponseErr, rest2, 1, 2⟩
        | .done st1 out1 res1 =>
          match res1 with
          | .error err =>
            ⟨st1, out1 ++ [recoveryFailLine req err], .error err, rest2, 1, 2⟩
          | .ok _ =>
            let r2 := runRequest parse req st1 rest2
            match r2.result with
            | .error err =>
              ⟨r2.state, out1 ++ r2.output ++ [recoveryFailLine req err], .error err,
               r2.rest, r2.recoveries + 1, r2.calls + 2⟩
            | .ok _ =>
              ⟨r2.state, out1 ++ r2.output, .ok (), r2.rest, r2.recoveries + 1, r2.calls + 2⟩

/-- `reinitializeAndRetry` (lines 319-356) as a stand-alone function,
starting from the cleared session state: send the synthetic `initialize`; on
its success resend the original request; on any failure emit one error line
carrying the original request's id (lines 347-353) and propagate the error. -/
def reinitializeAndRetry (parse : String → Except String Json)
    (originalRequest : Json) (events : List HttpEvent) : RunResult :=
  match events with
  | [] =>
    ⟨⟨none, false⟩, [recoveryFailLine originalRequest noResponseErr],
     .error noResponseErr, [], 0, 1⟩
  | e :: rest =>
    match httpCall parse true ⟨none, false⟩ e with
    | .recover =>
      ⟨⟨none, false⟩, [recoveryFailLine originalRequest noResponseErr],
       .error noResponseErr, rest, 0, 1⟩
    | .done st1 out1 res1 =>
      match res1 with
      | .error err =>
        ⟨st1, out1 ++ [recoveryFailLine originalRequest err], .error err, rest, 0, 1⟩
      | .ok _ =>
        let r2 := runRequest parse originalRequest st1 rest
        match r2.result with
        | .error err =>
          ⟨r2.state, out1 ++ r2.output ++ [recoveryFailLine originalRequest err],
           .error err, r2.rest, r2.recoveries, r2.calls + 1⟩
        | .ok _ =>
          ⟨r2.state, out1 ++ r2.output, .ok (), r2.rest, r2.recoveries, r2.calls + 1⟩

/-- `jsonRequest.method` is truthy. -/
def methodTruthy (req : Json) : Bool :=
  match getField req "method" with
  | some m => jsTruthy m
  | none => false

/-- `jsonRequest.id !== undefined`. -/
def idPresent (req : Json) : Bool :=
  (getField req "id").isSome

/-- `jsonRequest.id !== null` (meaningful when present). -/
def idNonNull (req : Json) : Bool :=
  match getField req "id" with
  | some .null => false
  | some _ => true
  | none => false

/-- The uncaught `TypeError` raised at line 377 when `jsonRequest.jsonrpc`
is evaluated on the JSON value `null` (the only `JSON.parse` result whose
property access throws).  The exception escapes the handler and crashes the
process. -/
def nullDerefErr : JsError :=
  { message := "uncaught TypeError: cannot read properties of null",
    errorCode := none, statusCode := none }

/-- The `rl.on('line')` handler (lines 361-413): blank-line skip, JSON parse,
`jsonrpc` validation, then the notification / request / invalid branches.
Promise rejections from the request branch are turned into one additional
`sendError` line; rejections from the notification branch are swallowed.
An input line parsing to the JSON value `null` makes line 377 throw an
uncaught `TypeError` — the process crashes with no output for that line;
since every surviving path of the handler returns `.ok`, that crash is
modelled as the `.error nullDerefErr` result. -/
def handleLine (parse : String → Except String Json) (line : String)
    (st : BridgeState) (events : List HttpEvent) : RunResult :=
  if jsTrim line = "" then ⟨st, [], .ok (), events, 0, 0⟩
  else
    match parse line with
    | .error m =>
      ⟨st, [.errorLine (.num (-32700)) ("Parse error: " ++ m) .null], .ok (), events, 0, 0⟩
    | .ok .null => ⟨st, [], .error nullDerefErr, events, 0, 0⟩
    | .ok req =>
      match getField req "jsonrpc" with
      | some (.str "2.0") =>
        if !(idPresent req) && methodTruthy req then
          let r := runRequest parse req st events
          ⟨r.state, r.output, .ok (), r.rest, r.recoveries, r.calls⟩
        else if methodTruthy req && idPresent req && idNonNull req then
          let r := runRequest parse req st events
          match r.result with
          | .ok _ => ⟨r.state, r.output, .ok (), r.rest, r.recoveries, r.calls⟩
          | .error e =>
            ⟨r.state, r.output ++ [.errorLine (errCodeOf e) (errMsgOf e) (idOrNull req)],
             .ok (), r.rest, r.recoveries, r.calls⟩
        else
          ⟨st, [.errorLine (.num (-32600)) "Invalid Request: missing method or id" (idOrNull req)],
           .ok (), events, 0, 0⟩
      | _ =>
        ⟨st, [.errorLine (.num (-32600)) "Invalid Request: jsonrpc must be \"2.0\"" (idOrNull req)],
         .ok (), events, 0, 0⟩

/-- JavaScript object property assignment `m[k] = v` on an object represented
as an association list with at most one binding per key: update in place if
the key exists, append otherwise. -/
def jsSet (m : List (String × String)) (k v : String) : List (String × String) :=
  if m.any (fun p => p.1 == k) then
    m.map (fun p => if p.1 == k then (k, v) else p)
  else m ++ [(k, v)]

/-- Object spread `{...m, ...n}`: properties of `n` assigned over `m` in
order (later bindings override earlier ones). -/
def jsMerge (m n : List (String × String)) : List (String × String) :=
  n.foldl (fun acc p => jsSet acc p.1 p.2) m

/-- The binding a sequence of JavaScript object assignments retains for key
`k`: the last one, if any. -/
def lastBinding : List (String × String) → String → Option String
  | [], _ => none
  | p :: t, k =>
    match lastBinding t k with
    | some v => some v
    | none => if p.1 == k then some p.2 else none

/-- Lines 135-142: `{'Content-Type': 'application/json'}` plus, when a bearer
token is configured (truthy), `Authorization: Bearer <token>`.  An absent or
empty token is represented as `none`. -/
def baseHeaders (bearer : Option String) : List (String × String) :=
  match bearer with
  | some t => [("Content-Type", "application/json"), ("Authorization", "Bearer " ++ t)]
  | none => [("Content-Type", "application/json")]

/-- Line 145: `{...baseHeaders, ...customHeaders}`. -/
def defaultHeaders (bearer : Option String) (custom : List (String × String)) :
    List (String × String) :=
  jsMerge (baseHeaders bearer) custom

/-- Lines 168-179: per-request headers — `{...defaultHeaders,
'Content-Length': byteLength(body)}`, then `headers['Mcp-Session-Id'] =
sessionId` when this is not an initialize request and a session id is
truthy. -/
def requestHeaders (bearer : Option String) (custom : List (String × String))
    (bodyLen : Nat) (sessionId : Option String) (isInit : Bool) :
    List (String × String) :=
  let headers := jsSet (defaultHeaders bearer custom) "Content-Length" (toString bodyLen)
  match sessionId with
  | some s => if isInit = false ∧ s ≠ "" then jsSet headers "Mcp-Session-Id" s else headers
  | none => headers

/-- The error-message chain as the claim words it, read literally: a branch
applies when the named *fields are present* (rather than JS-truthy), and the
final fallback is always suffixed with up to 200 characters of raw body.
Used only to exhibit where this literal reading diverges from the code. -/
def claimChainMessage (parse : String → Except String Json) (status : Nat)
    (body : String) : String :=
  let fallback :=
    "HTTP " ++ toString status ++
      (if jsTrim (jsTake body 200) = "" then "" else ": " ++ jsTrim (jsTake body 200))
  let core :=
    match parse body with
    | .error _ => fallback
    | .ok er =>
      if (getField er "code").isSome && (getField er "message").isSome then
        if isRestForbidden (getField er "code") then
          if status = 401 then "Authentication failed: Invalid or expired JWT token"
          else "Forbidden: " ++ jsToString ((getField er "message").getD .null)
        else jsToString ((getField er "message").getD .null)
      else if (getField er "error").isSome then
        jsToString ((getField ((getField er "error").getD .null) "message").getD .null)
      else if (getField er "message").isSome then
        jsToString ((getField er "message").getD .null)
      else fallback
  match parse body with
  | .ok er =>
    match (getField er "data").bind (fun d => getField d "status") with
    | some sv => core ++ " (HTTP " ++ jsToString sv ++ ")"
    | none => core
  | .error _ => core

/-- Chain rule (a) of the spec: a REST-style body with truthy `code` and
`message` fields, with the `rest_forbidden` special cases. -/
def restStyleMsg (status : Nat) (er : Json) : Option String :=
  if jsTruthyO (getField er "code") && jsTruthyO (getField er "message") then
    some (if isRestForbidden (getField er "code") then
            if status = 401 then "Authentication failed: Invalid or expired JWT token"
            else "Forbidden: " ++ jsToString ((getField er "message").getD .null)
          else jsToString ((getField er "message").getD .null))
  else none

/-- Chain rule (b) of the spec: a JSON-RPC-style body with a truthy `error`
field supplies the message (falling back to the default when `error.message`
is absent or falsy) and, when truthy, `error.code` as the error code. -/
def rpcStyle (defaultMsg : String) (er : Json) : Option (String × Json) :=
  if jsTruthyO (getField er "error") then
    some ((match getField ((getField er "error").getD .null) "message" with
           | some mv => if jsTruthy mv then jsToString mv else defaultMsg
           | none => defaultMsg),
          (match getField ((getField er "error").getD .null) "code" with
           | some cv => if jsTruthy cv then cv else .num (-32000)
           | none => .num (-32000)))
  else none

/-- Chain rule (c) of the spec: a bare truthy `message` field. -/
def bareMsg (er : Json) : Option String :=
  if jsTruthyO (getField er "message") then
    some (jsToString ((getField er "message").getD .null))
  else none

/-- Parenthetic `(HTTP <data.status>)` suffix, applied when `data.status` is
truthy. -/
def dataStatusSuffix (er : Json) (m : String) : String :=
  match (getField er "data").bind (fun d => getField d "status") with
  | some sv => if jsTruthy sv then m ++ " (HTTP " ++ jsToString sv ++ ")" else m
  | none => m

/-- The amended derivation chain (first applicable rule wins): rule (a),
else rule (b), else rule (c), else the bare `HTTP <status>`; the raw-body
suffix applies exactly when the body is not valid JSON or is the JSON value
`null` (whose field access throws a `TypeError` into the same catch block);
`data.status` is appended when truthy.  Returns (message, error code). -/
def amendedErrorChain (parse : String → Except String Json) (status : Nat)
    (body : String) : String × Json :=
  let defaultMsg := "HTTP " ++ toString status
  let suffixed : String × Json :=
    let preview := jsTrim (jsTake body 200)
    (if preview = "" then defaultMsg else defaultMsg ++ ": " ++ preview, .num (-32000))
  match parse body with
  | .error _ => suffixed
  | .ok .null => suffixed
  | .ok er =>
    let base : String × Json :=
      match restStyleMsg status er with
      | some m => (m, .num (-32000))
      | none =>
        match rpcStyle defaultMsg er with
        | some p => p
        | none =>
          match bareMsg er with
          | some m => (m, .num (-32000))
          | none => (defaultMsg, .num (-32000))
    (dataStatusSuffix er base.1, base.2)

/-! ### Concrete fixtures

A table-based instance of the abstract `parse` parameter, mapping a few
JSON texts to their values, plus the concrete requests, lines and HTTP
events used by witnesses and counterexamples. -/

/-- A non-initialize request with id 7. -/
def reqA : Json :=
  .obj [("jsonrpc", .str "2.0"), ("method", .str "tools/list"), ("id", .num 7)]

/-- A notification: `method` present, no `id`. -/
def notifA : Json :=
  .obj [("jsonrpc", .str "2.0"), ("method", .str "notifications/progress")]

/-- Input line whose JSON value is `reqA`. -/
def lineA : String :=
  "\x7b\"jsonrpc\":\"2.0\",\"method\":\"tools/list\",\"id\":7\x7d"

/-- Input line whose JSON value is `notifA`. -/
def notifLine : String :=
  "\x7b\"jsonrpc\":\"2.0\",\"method\":\"notifications/progress\"\x7d"

/-- Body line with the single JSON object mapping a to 1. -/
def bodyA : String := "\x7b\"a\":1\x7d"

/-- Body line with the single JSON object mapping b to 2. -/
def bodyB : String := "\x7b\"b\":2\x7d"

/-- A WordPress-style error body with `code` present and `message` present
but empty. -/
def restForbiddenBody : String :=
  "\x7b\"code\":\"rest_forbidden\",\"message\":\"\"\x7d"

/-- A JSON body with none of the `code`/`message`/`error` fields. -/
def fooBody : String := "\x7b\"foo\":1\x7d"

/-- A concrete instance of the `JSON.parse` parameter: a finite table of
JSON texts and their parses; everything else raises. -/
def demoParse (s : String) : Except String Json :=
  if s = lineA then .ok reqA
  else if s = notifLine then .ok notifA
  else if s = bodyA then .ok (.obj [("a", .num 1)])
  else if s = bodyB then .ok (.obj [("b", .num 2)])
  else if s = restForbiddenBody then
    .ok (.obj [("code", .str "rest_forbidden"), ("message", .str "")])
  else if s = fooBody then .ok (.obj [("foo", .num 1)])
  else .error "Unexpected token"

/-- A 404 response with empty body. -/
def e404 : HttpEvent := .resp ⟨404, [], ""⟩

/-- A 500 response with empty body. -/
def e500 : HttpEvent := .resp ⟨500, [], ""⟩

/-- A 200 response to an initialize call carrying a session header. -/
def eInitOK : HttpEvent := .resp ⟨200, [("mcp-session-id", "S2")], ""⟩

/-- A plain 200 response with empty body. -/
def eOK : HttpEvent := .resp ⟨200, [], ""⟩

/-- Event trace on which the original request receives `n + 1` consecutive
404s, each re-initialization succeeding and issuing a fresh session id, and
the final retry succeeding. -/
def badTrace : Nat → List HttpEvent
  | 0 => [e404, eInitOK, eOK]
  | n + 1 => e404 :: eInitOK :: badTrace n

/-- Does `parse` accept this line? -/
def parsesOk (parse : String → Except String Json) (l : String) : Bool :=
  match parse l with
  | .ok _ => true
  | .error _ => false

/-! ### Helper lemmas -/

theorem applySessionExtraction_nonInit (hs : List (String × String)) (st : BridgeState) :
    applySessionExtraction false hs st = st := by
  cases h : extractSessionHeader hs <;> simp [applySessionExtraction, h]

theorem applySessionExtraction_found (hs : List (String × String)) (st : BridgeState)
    (s : String) (h : extractSessionHeader hs = some s) :
    applySessionExtraction true hs st = ⟨some s, true⟩ := by
  simp [applySessionExtraction, h]

theorem filterMap_parse_eq (parse : String → Except String Json) (ls : List String) :
    (ls.filterMap (fun l =>
      match parse l with
      | .ok _ => some (Output.forwarded l)
      | .error _ => none)) =
    (ls.filter (fun l => parsesOk parse l)).map Output.forwarded := by
  induction ls with
  | nil => rfl
  | cons a t ih =>
    cases hp : parse a <;>
      simp [List.filterMap_cons, List.filter_cons, parsesOk, hp, ih]

theorem runRequest_resp_noRecover (parse : String → Except String Json) (req : Json)
    (st : BridgeState) (r : HttpResp) (rest : List HttpEvent)
    (h : ¬(r.status = 404 ∧
           sessionTruthy (applySessionExtraction (isInitializeReq req) r.headers st).sessionId = true ∧
           isInitializeReq req = false)) :
    runRequest parse req st (.resp r :: rest) =
      if 200 ≤ r.status ∧ r.status < 300 then
        ⟨applySessionExtraction (isInitializeReq req) r.headers st,
         successLines parse r.body, .ok (), rest, 0, 1⟩
      else
        ⟨applySessionExtraction (isInitializeReq req) r.headers st,
         [], .error (httpErrorOf parse r.status r.body), rest, 0, 1⟩ := by
  cases rest with
  | nil =>
    rw [runRequest.eq_2]
    simp only [httpCall]
    rw [if_neg h]
    by_cases h2 : 200 ≤ r.status ∧ r.status < 300
    · rw [if_pos h2, if_pos h2]
    · rw [if_neg h2, if_neg h2]
  | cons e2 rest2 =>
    rw [runRequest.eq_3]
    simp only [httpCall]
    rw [if_neg h]
    by_cases h2 : 200 ≤ r.status ∧ r.status < 300
    · rw [if_pos h2, if_pos h2]
    · rw [if_neg h2, if_neg h2]

/-! ### Claim theorems -/

/-- Claim C2 (code-bug evaluation): a request (id 7) whose 404-triggered
recovery fails (the synthetic initialize gets a 500) produces two JSON-RPC
error objects on stdout — one from the catch block of
`reinitializeAndRetry` and a second from the outer request handler, because
the rethrown error also rejects the outer `makeRequest` promise — both
carrying the original id 7.  The claim (and the spec) require exactly one
error object per failed request. -/
theorem C2_recovery_failure_emits_two_errors :
    (handleLine demoParse lineA ⟨some "S1", true⟩ [e404, e500]).output =
      [.errorLine (.num (-32000))
         "Session expired and re-initialization failed: HTTP 500" (.num 7),
       .errorLine (.num (-32000)) "HTTP 500" (.num 7)] ∧
    (handleLine demoParse lineA ⟨some "S1", true⟩ [e404, e500]).output.length = 2 :=
  ⟨rfl, rfl⟩

/-- Claim C3 (code-bug evaluation): a notification (no id) whose
404-triggered recovery fails produces one JSON-RPC error line (id null) on
stdout — the catch block of `reinitializeAndRetry` sends it before
rethrowing, and only the rethrown rejection is swallowed by the notification
handler.  The claim requires notifications never to produce output. -/
theorem C3_notification_recovery_failure_writes_output :
    (handleLine demoParse notifLine ⟨some "S1", true⟩ [e404, e500]).output =
      [.errorLine (.num (-32000))
         "Session expired and re-initialization failed: HTTP 500" .null] :=
  rfl

/-- Claim C6 (counterexample): on the body carrying code "rest_forbidden"
and an empty message at status 403, the claim's chain — read with field
presence — produces "Forbidden: ", while the code tests JS truthiness, skips
every branch (the empty message is falsy) and produces "HTTP 403". -/
theorem C6_counterexample_presence_vs_truthiness :
    claimChainMessage demoParse 403 restForbiddenBody = "Forbidden: " ∧
    (httpErrorOf demoParse 403 restForbiddenBody).message = "HTTP 403" ∧
    ("Forbidden: " : String) ≠ "HTTP 403" :=
  ⟨rfl, rfl, by decide⟩

set_option maxHeartbeats 1000000 in
/-- Claim C6 (amended): the error derivation equals the first-match chain
with JS-truthy field tests — rule (a) REST-style `code`/`message` with the
`rest_forbidden` special cases, else rule (b) `error.message` with truthy
`error.code` as the code, else rule (c) bare `message`, else plain
`HTTP <status>`; the raw-body suffix applies exactly when the body is not
valid JSON or is the JSON value `null`, whose field access at line 260
throws a `TypeError` into the same catch block; a truthy `data.status` is
appended parenthetically; the error code defaults to -32000. -/
theorem C6_amended_error_chain :
    ∀ (parse : String → Except String Json) (status : Nat) (body : String),
      (httpErrorOf parse status body).message = (amendedErrorChain parse status body).1 ∧
      (httpErrorOf parse status body).errorCode = some (amendedErrorChain parse status body).2 ∧
      (httpErrorOf parse status body).statusCode = some status := by
  intro parse status body
  cases hp : parse body with
  | error m => simp [httpErrorOf, amendedErrorChain, hp]
  | ok er =>
    cases er
    case null => simp [httpErrorOf, amendedErrorChain, hp]
    all_goals
      simp only [httpErrorOf, amendedErrorChain, restStyleMsg, rpcStyle, bareMsg,
        dataStatusSuffix, hp]
    all_goals split_ifs <;> simp_all

/-- Claim C7: on a 2xx response the output is exactly the sequence of
parseable non-blank lines of the trimmed body, forwarded verbatim in order;
in particular two valid JSON lines yield those two lines in that order, and
a malformed line followed by a valid one yields exactly the valid one. -/
theorem C7_success_body_forwarding :
    (∀ (parse : String → Except String Json) (body : String),
      successLines parse body =
        (((jsSplitNewline (jsTrim body)).filter (fun l => !(jsTrim l == ""))).filter
          (fun l => parsesOk parse l)).map Output.forwarded) ∧
    successLines demoParse (bodyA ++ "\n" ++ bodyB) =
      [.forwarded bodyA, .forwarded bodyB] ∧
    successLines demoParse ("oops\n" ++ bodyB) = [.forwarded bodyB] := by
  refine ⟨fun parse body => ?_, rfl, rfl⟩
  by_cases hb : jsTrim body = ""
  · have h1 : successLines parse body = [] := by simp [successLines, hb]
    rw [h1, hb]
    rfl
  · simp only [successLines]
    rw [if_neg hb]
    exact filterMap_parse_eq parse _

/-- Claim C8 (counterexample): a whitespace-only input line is not valid
JSON, yet the bridge skips it silently — no -32700 error object, no output,
no HTTP call — because the blank-line guard runs before JSON parsing. -/
theorem C8_counterexample_blank_line :
    demoParse " " = .error "Unexpected token" ∧
    (handleLine demoParse " " ⟨none, false⟩ []).output = [] ∧
    (handleLine demoParse " " ⟨none, false⟩ []).calls = 0 :=
  ⟨rfl, rfl, rfl⟩

/-- Claim C8 (amended): every non-blank input line that fails to parse as
JSON yields exactly one JSON-RPC error object with code -32700 and id null,
and no HTTP call is made for that line. -/
theorem C8_amended_parse_error (parse : String → Except String Json)
    (line : String) (st : BridgeState) (events : List HttpEvent) (m : String)
    (hblank : jsTrim line ≠ "") (hparse : parse line = .error m) :
    handleLine parse line st events =
      ⟨st, [.errorLine (.num (-32700)) ("Parse error: " ++ m) .null],
       .ok (), events, 0, 0⟩ := by
  simp [handleLine, hblank, hparse]

/-- Witness for C8 (amended) at the line "oops". -/
theorem C8_witness :
    jsTrim "oops" ≠ "" ∧ demoParse "oops" = .error "Unexpected token" ∧
    handleLine demoParse "oops" ⟨none, false⟩ [] =
      ⟨⟨none, false⟩,
       [.errorLine (.num (-32700)) "Parse error: Unexpected token" .null],
       .ok (), [], 0, 0⟩ :=
  ⟨by decide, rfl,
   C8_amended_parse_error demoParse "oops" ⟨none, false⟩ [] "Unexpected token"
     (by decide) rfl⟩

/-- Claim C9: the session-extraction step (lines 196-206) never changes
state for a non-initialize call, and a non-initialize call settled by a
single response that does not fire the 404 recovery guard leaves the session
state exactly as it was — even when the response carries a session header.
(The clearing performed by 404-triggered recovery is the separately
specified behavior of C4 and is excluded by the second hypothesis.) -/
theorem C9_non_initialize_never_changes_session :
    (∀ (hs : List (String × String)) (st : BridgeState),
       applySessionExtraction false hs st = st) ∧
    (∀ (parse : String → Except String Json) (req : Json) (st : BridgeState)
       (r : HttpResp) (rest : List HttpEvent),
       isInitializeReq req = false →
       ¬(r.status = 404 ∧ sessionTruthy st.sessionId = true) →
       (runRequest parse req st (.resp r :: rest)).state = st) := by
  refine ⟨applySessionExtraction_nonInit, ?_⟩
  intro parse req st r rest hreq hno
  have hne : ¬(r.status = 404 ∧
      sessionTruthy (applySessionExtraction (isInitializeReq req) r.headers st).sessionId = true ∧
      isInitializeReq req = false) := by
    rw [hreq, applySessionExtraction_nonInit]
    exact fun h => hno ⟨h.1, h.2.1⟩
  rw [runRequest_resp_noRecover parse req st r rest hne]
  by_cases h2 : 200 ≤ r.status ∧ r.status < 300 <;>
    simp [h2, hreq, applySessionExtraction_nonInit]

/-- Witness for C9 at a 200 response carrying a session header: the held
session "S1" survives untouched. -/
theorem C9_witness :
    isInitializeReq reqA = false ∧
    ¬((200 : Nat) = 404 ∧ sessionTruthy (some "S1") = true) ∧
    (runRequest demoParse reqA ⟨some "S1", true⟩
        [.resp ⟨200, [("mcp-session-id", "NEW")], ""⟩]).state = ⟨some "S1", true⟩ :=
  ⟨by decide, by decide,
   C9_non_initialize_never_changes_session.2 demoParse reqA ⟨some "S1", true⟩
     ⟨200, [("mcp-session-id", "NEW")], ""⟩ [] (by decide) (by decide)⟩

/-- Claim C10: an initialize call whose response carries a (truthy) session
header stores it and marks the bridge initialized whatever the status code
is; when the status is not 2xx the call still fails with the derived HTTP
error — the session overwrite happens before the error is reported.  (A 404
on an initialize call never fires the recovery guard.) -/
theorem C10_initialize_response_always_stores_session :
    ∀ (parse : String → Except String Json) (st : BridgeState) (r : HttpResp)
      (rest : List HttpEvent) (s : String),
      extractSessionHeader r.headers = some s →
      (runRequest parse initRequest st (.resp r :: rest)).state = ⟨some s, true⟩ ∧
      (¬(200 ≤ r.status ∧ r.status < 300) →
        (runRequest parse initRequest st (.resp r :: rest)).result =
          .error (httpErrorOf parse r.status r.body)) := by
  intro parse st r rest s hs
  have hinit : isInitializeReq initRequest = true := rfl
  have hne : ¬(r.status = 404 ∧
      sessionTruthy (applySessionExtraction (isInitializeReq initRequest) r.headers st).sessionId = true ∧
      isInitializeReq initRequest = false) := by
    rw [hinit]
    exact fun h => by simpa using h.2.2
  rw [runRequest_resp_noRecover parse initRequest st r rest hne]
  constructor
  · by_cases h2 : 200 ≤ r.status ∧ r.status < 300 <;>
      simp [h2, hinit, applySessionExtraction_found r.headers st s hs]
  · intro h2
    rw [if_neg h2]

/-- Witness for C10: a failing (404) initialize response carrying the
session header "NEW" overwrites the held session "OLD" and reports the
HTTP error. -/
theorem C10_witness :
    extractSessionHeader [("mcp-session-id", "NEW")] = some "NEW" ∧
    (runRequest demoParse initRequest ⟨some "OLD", true⟩
        [.resp ⟨404, [("mcp-session-id", "NEW")], ""⟩]).state = ⟨some "NEW", true⟩ ∧
    (runRequest demoParse initRequest ⟨some "OLD", true⟩
        [.resp ⟨404, [("mcp-session-id", "NEW")], ""⟩]).result =
      .error (httpErrorOf demoParse 404 "") :=
  ⟨rfl,
   (C10_initialize_response_always_stores_session demoParse ⟨some "OLD", true⟩
      ⟨404, [("mcp-session-id", "NEW")], ""⟩ [] "NEW" rfl).1,
   (C10_initialize_response_always_stores_session demoParse ⟨some "OLD", true⟩
      ⟨404, [("mcp-session-id", "NEW")], ""⟩ [] "NEW" rfl).2 (by decide)⟩

/-! ### Header-map lemmas -/

theorem headerLookup_cons (p : String × String) (t : List (String × String)) (k : String) :
    headerLookup (p :: t) k = if p.1 == k then some p.2 else headerLookup t k := by
  by_cases hp : p.1 == k <;> simp [headerLookup, List.find?, hp]

theorem lookup_map_set (m : List (String × String)) (k v : String)
    (hany : m.any (fun p => p.1 == k) = true) :
    headerLookup (m.map (fun p => if p.1 == k then (k, v) else p)) k = some v := by
  induction m with
  | nil => simp at hany
  | cons p t ih =>
    simp only [List.map_cons]
    by_cases hp : (p.1 == k) = true
    · simp only [if_pos hp, headerLookup_cons]
      rw [if_pos (show (((k, v) : String × String).1 == k) = true by simp)]
    · simp only [if_neg hp, headerLookup_cons]
      apply ih
      simp only [List.any_cons, Bool.or_eq_true] at hany
      rcases hany with h | h
      · exact absurd h hp
      · exact h

theorem lookup_append_single (m : List (String × String)) (k v : String)
    (hnone : m.any (fun p => p.1 == k) = false) :
    headerLookup (m ++ [(k, v)]) k = some v := by
  induction m with
  | nil =>
    rw [List.nil_append, headerLookup_cons]
    rw [if_pos (show (((k, v) : String × String).1 == k) = true by simp)]
  | cons p t ih =>
    simp only [List.any_cons, Bool.or_eq_false_iff] at hnone
    rw [List.cons_append, headerLookup_cons]
    rw [if_neg (by simp [hnone.1])]
    exact ih hnone.2

theorem lookup_map_ne (m : List (String × String)) (k v k' : String) (h : k' ≠ k) :
    headerLookup (m.map (fun p => if p.1 == k then (k, v) else p)) k' =
      headerLookup m k' := by
  induction m with
  | nil => rfl
  | cons p t ih =>
    simp only [List.map_cons]
    rw [headerLookup_cons (p := p)]
    by_cases hp : (p.1 == k) = true
    · have hpk : p.1 = k := by simpa using hp
      simp only [if_pos hp]
      rw [headerLookup_cons]
      rw [if_neg (show ¬(((k, v) : String × String).1 == k') = true by
            simpa using Ne.symm h)]
      rw [if_neg (show ¬(p.1 == k') = true by simpa [hpk] using Ne.symm h)]
      exact ih
    · simp only [if_neg hp]
      rw [headerLookup_cons]
      by_cases hq : (p.1 == k') = true
      · rw [if_pos hq, if_pos hq]
      · rw [if_neg hq, if_neg hq]
        exact ih

theorem lookup_append_ne (m : List (String × String)) (k v k' : String) (h : k' ≠ k) :
    headerLookup (m ++ [(k, v)]) k' = headerLookup m k' := by
  induction m with
  | nil =>
    rw [List.nil_append, headerLookup_cons]
    rw [if_neg (show ¬(((k, v) : String × String).1 == k') = true by
          simpa using Ne.symm h)]
  | cons p t ih =>
    rw [List.cons_append, headerLookup_cons, headerLookup_cons]
    by_cases hq : (p.1 == k') = true
    · rw [if_pos hq, if_pos hq]
    · rw [if_neg hq, if_neg hq]
      exact ih

theorem headerLookup_jsSet_self (m : List (String × String)) (k v : String) :
    headerLookup (jsSet m k v) k = some v := by
  by_cases hany : (m.any (fun p => p.1 == k)) = true
  · simp only [jsSet, if_pos hany]
    exact lookup_map_set m k v hany
  · simp only [jsSet, if_neg hany]
    exact lookup_append_single m k v (by revert hany; cases m.any (fun p => p.1 == k) <;> simp)

theorem headerLookup_jsSet_ne (m : List (String × String)) (k v k' : String)
    (h : k' ≠ k) :
    headerLookup (jsSet m k v) k' = headerLookup m k' := by
  by_cases hany : (m.any (fun p => p.1 == k)) = true
  · simp only [jsSet, if_pos hany]
    exact lookup_map_ne m k v k' h
  · simp only [jsSet, if_neg hany]
    exact lookup_append_ne m k v k' h

theorem headerLookup_jsMerge (m n : List (String × String)) (k : String) :
    headerLookup (jsMerge m n) k =
      (lastBinding n k).elim (headerLookup m k) some := by
  induction n generalizing m with
  | nil => simp [jsMerge, lastBinding]
  | cons p t ih =>
    have hstep : jsMerge m (p :: t) = jsMerge (jsSet m p.1 p.2) t := rfl
    rw [hstep, ih]
    cases hlb : lastBinding t k with
    | some v => simp [lastBinding, hlb]
    | none =>
      simp only [lastBinding, hlb]
      by_cases hp : p.1 == k
      · have hpk : p.1 = k := by simpa using hp
        subst hpk
        simp [headerLookup_jsSet_self]
      · have : k ≠ p.1 := fun hk => hp (by simp [hk])
        simp [hp, headerLookup_jsSet_ne m p.1 p.2 k this]

theorem headerLookup_requestHeaders_ne (bearer : Option String)
    (custom : List (String × String)) (len : Nat) (sess : Option String)
    (isInit : Bool) (k : String)
    (h1 : k ≠ "Content-Length") (h2 : k ≠ "Mcp-Session-Id") :
    headerLookup (requestHeaders bearer custom len sess isInit) k =
      headerLookup (jsMerge (baseHeaders bearer) custom) k := by
  cases sess with
  | none =>
    simp only [requestHeaders, defaultHeaders]
    rw [headerLookup_jsSet_ne _ _ _ _ h1]
  | some s =>
    simp only [requestHeaders, defaultHeaders]
    by_cases hc : isInit = false ∧ s ≠ ""
    · rw [if_pos hc, headerLookup_jsSet_ne _ _ _ _ h2, headerLookup_jsSet_ne _ _ _ _ h1]
    · rw [if_neg hc, headerLookup_jsSet_ne _ _ _ _ h1]

/-- Claim C5 (counterexample): with the custom header `Mcp-Session-Id: abc`
configured (the README's own recommended usage) an initialize request does
carry the `Mcp-Session-Id` header even though a session token "S" is held —
the claim's "never set on initialize" fails for custom headers. -/
theorem C5_counterexample_custom_session_header :
    sessionTruthy (some "S") = true ∧
    headerLookup (requestHeaders none [("Mcp-Session-Id", "abc")] 2 (some "S") true)
        "Mcp-Session-Id" = some "abc" :=
  ⟨rfl, rfl⟩

/-- Claim C5 (amended): (1) an initialize request's headers never depend on
the held session token, and carry no `Mcp-Session-Id` unless a custom header
of that exact name is configured; (2) a non-initialize request with a truthy
session token carries `Mcp-Session-Id` set to exactly that token (overriding
any custom header of that name); (3) every configured custom header other
than the later-set `Content-Length` and `Mcp-Session-Id` keys — in
particular `Content-Type` and `Authorization` — reaches the request with its
configured value, overriding the defaults on a case-sensitive key match;
(4) without a custom binding for the exact key `Content-Type`, the default
content type survives (a differently-cased custom key does not override). -/
theorem C5_amended_header_composition :
    (∀ (bearer : Option String) (custom : List (String × String)) (len : Nat)
       (sess : Option String),
       requestHeaders bearer custom len sess true =
         requestHeaders bearer custom len none true) ∧
    (∀ (bearer : Option String) (custom : List (String × String)) (len : Nat)
       (sess : Option String),
       lastBinding custom "Mcp-Session-Id" = none →
       headerLookup (requestHeaders bearer custom len sess true) "Mcp-Session-Id" = none) ∧
    (∀ (bearer : Option String) (custom : List (String × String)) (len : Nat)
       (s : String), s ≠ "" →
       headerLookup (requestHeaders bearer custom len (some s) false) "Mcp-Session-Id" =
         some s) ∧
    (∀ (bearer : Option String) (custom : List (String × String)) (len : Nat)
       (sess : Option String) (isInit : Bool) (k v : String),
       k ≠ "Content-Length" → k ≠ "Mcp-Session-Id" →
       lastBinding custom k = some v →
       headerLookup (requestHeaders bearer custom len sess isInit) k = some v) ∧
    (∀ (bearer : Option String) (custom : List (String × String)) (len : Nat)
       (sess : Option String) (isInit : Bool),
       lastBinding custom "Content-Type" = none →
       headerLookup (requestHeaders bearer custom len sess isInit) "Content-Type" =
         some "application/json") := by
  refine ⟨?_, ?_, ?_, ?_, ?_⟩
  · intro bearer custom len sess
    cases sess <;> simp [requestHeaders]
  · intro bearer custom len sess hlb
    have hsess : requestHeaders bearer custom len sess true =
        requestHeaders bearer custom len none true := by
      cases sess <;> simp [requestHeaders]
    rw [hsess]
    simp only [requestHeaders, defaultHeaders]
    rw [headerLookup_jsSet_ne _ _ _ _
      (show "Mcp-Session-Id" ≠ "Content-Length" by decide)]
    rw [headerLookup_jsMerge, hlb]
    cases bearer <;> rfl
  · intro bearer custom len s hs
    simp only [requestHeaders]
    rw [if_pos ⟨trivial, hs⟩]
    exact headerLookup_jsSet_self _ _ _
  · intro bearer custom len sess isInit k v h1 h2 hlb
    rw [headerLookup_requestHeaders_ne bearer custom len sess isInit k h1 h2]
    rw [headerLookup_jsMerge, hlb]
    rfl
  · intro bearer custom len sess isInit hlb
    rw [headerLookup_requestHeaders_ne bearer custom len sess isInit "Content-Type"
      (by decide) (by decide)]
    rw [headerLookup_jsMerge, hlb]
    cases bearer <;> rfl

/-- Witness for C5 (amended), discharging each hypothesis at concrete
inputs: a custom `X-API-Key` overrides nothing it should not, a custom
`Authorization` overrides the bearer default, a lower-cased `content-type`
custom key does not override `Content-Type`, and a held token "S1" is
attached verbatim to a non-initialize request. -/
theorem C5_witness :
    lastBinding [("content-type", "text/plain"), ("Authorization", "Basic x")]
        "Authorization" = some "Basic x" ∧
    headerLookup (requestHeaders (some "T")
        [("content-type", "text/plain"), ("Authorization", "Basic x")] 9 (some "S1") false)
        "Authorization" = some "Basic x" ∧
    lastBinding [("content-type", "text/plain"), ("Authorization", "Basic x")]
        "Content-Type" = none ∧
    headerLookup (requestHeaders (some "T")
        [("content-type", "text/plain"), ("Authorization", "Basic x")] 9 (some "S1") false)
        "Content-Type" = some "application/json" ∧
    headerLookup (requestHeaders (some "T")
        [("content-type", "text/plain"), ("Authorization", "Basic x")] 9 (some "S1") false)
        "Mcp-Session-Id" = some "S1" ∧
    lastBinding [("content-type", "text/plain")] "Mcp-Session-Id" = none ∧
    headerLookup (requestHeaders (some "T") [("content-type", "text/plain")] 9
        (some "S1") true) "Mcp-Session-Id" = none :=
  ⟨rfl,
   C5_amended_header_composition.2.2.2.1 (some "T")
     [("content-type", "text/plain"), ("Authorization", "Basic x")] 9 (some "S1") false
     "Authorization" "Basic x" (by decide) (by decide) rfl,
   rfl,
   C5_amended_header_composition.2.2.2.2 (some "T")
     [("content-type", "text/plain"), ("Authorization", "Basic x")] 9 (some "S1") false rfl,
   C5_amended_header_composition.2.2.1 (some "T")
     [("content-type", "text/plain"), ("Authorization", "Basic x")] 9 "S1" (by decide),
   rfl,
   C5_amended_header_composition.2.1 (some "T") [("content-type", "text/plain")] 9
     (some "S1") rfl⟩

/-- When the 404 recovery guard fires, `runRequest` behaves exactly as
`reinitializeAndRetry` on the remaining events, with the entry counted and
the original POST attempt added. -/
theorem runRequest_recover_eq (parse : String → Except String Json) (req : Json)
    (st : BridgeState) (e : HttpEvent) (rest : List HttpEvent)
    (h : httpCall parse (isInitializeReq req) st e = .recover) :
    runRequest parse req st (e :: rest) =
      ⟨(reinitializeAndRetry parse req rest).state,
       (reinitializeAndRetry parse req rest).output,
       (reinitializeAndRetry parse req rest).result,
       (reinitializeAndRetry parse req rest).rest,
       (reinitializeAndRetry parse req rest).recoveries + 1,
       (reinitializeAndRetry parse req rest).calls + 1⟩ := by
  cases rest with
  | nil => simp [runRequest.eq_2, h, reinitializeAndRetry]
  | cons e2 rest2 =>
    simp only [runRequest.eq_3, h, reinitializeAndRetry]
    cases h2 : httpCall parse true ⟨none, false⟩ e2 with
    | recover => simp [h2]
    | done st1 out1 res1 =>
      cases res1 with
      | error err => simp [h2]
      | ok u =>
        simp only [h2]
        cases hr : (runRequest parse req st1 rest2).result <;> simp [hr]

/-- Claim C4 (counterexample): a non-initialize request answered 404 while
NO session token is held does not trigger recovery at all — the guard also
requires a truthy `sessionId` — and is reported as a generic HTTP error with
the session state untouched. -/
theorem C4_counterexample_404_without_session :
    (runRequest demoParse reqA ⟨none, false⟩ [.resp ⟨404, [], ""⟩]).recoveries = 0 ∧
    (runRequest demoParse reqA ⟨none, false⟩ [.resp ⟨404, [], ""⟩]).result =
      .error { message := "HTTP 404", errorCode := some (.num (-32000)),
               statusCode := some 404 } ∧
    (runRequest demoParse reqA ⟨none, false⟩ [.resp ⟨404, [], ""⟩]).state =
      ⟨none, false⟩ :=
  ⟨rfl, rfl, rfl⟩

/-- Claim C4 (amended): (1) a 404 to a non-initialize request made while a
session token is held clears the session state and runs the recovery
protocol (synthetic initialize from the cleared state, then resend); this
guard — 404 AND a held session AND not initialize — is the sole trigger of
recovery; (2) every other non-2xx response to a non-initialize request
(including a 404 with no session held) is reported as a generic HTTP error
without touching session state. -/
theorem C4_amended_404_recovery_guard :
    (∀ (parse : String → Except String Json) (req : Json) (st : BridgeState)
       (r : HttpResp) (rest : List HttpEvent),
       isInitializeReq req = false →
       sessionTruthy st.sessionId = true →
       r.status = 404 →
       runRequest parse req st (.resp r :: rest) =
         ⟨(reinitializeAndRetry parse req rest).state,
          (reinitializeAndRetry parse req rest).output,
          (reinitializeAndRetry parse req rest).result,
          (reinitializeAndRetry parse req rest).rest,
          (reinitializeAndRetry parse req rest).recoveries + 1,
          (reinitializeAndRetry parse req rest).calls + 1⟩) ∧
    (∀ (parse : String → Except String Json) (req : Json) (st : BridgeState)
       (r : HttpResp) (rest : List HttpEvent),
       isInitializeReq req = false →
       ¬(r.status = 404 ∧ sessionTruthy st.sessionId = true) →
       ¬(200 ≤ r.status ∧ r.status < 300) →
       runRequest parse req st (.resp r :: rest) =
         ⟨st, [], .error (httpErrorOf parse r.status r.body), rest, 0, 1⟩) := by
  constructor
  · intro parse req st r rest hreq hsess h404
    apply runRequest_recover_eq
    simp only [httpCall, hreq, applySessionExtraction_nonInit]
    rw [if_pos ⟨h404, hsess, trivial⟩]
  · intro parse req st r rest hreq hno h2xx
    have hne : ¬(r.status = 404 ∧
        sessionTruthy (applySessionExtraction (isInitializeReq req) r.headers st).sessionId = true ∧
        isInitializeReq req = false) := by
      rw [hreq, applySessionExtraction_nonInit]
      exact fun hcon => hno ⟨hcon.1, hcon.2.1⟩
    rw [runRequest_resp_noRecover parse req st r rest hne]
    rw [if_neg h2xx, hreq, applySessionExtraction_nonInit]

/-- Witness for C4 (amended): a 404 with session "S1" held enters recovery;
a 500 (and, per the counterexample, a sessionless 404) is reported as a
plain HTTP error. -/
theorem C4_witness :
    isInitializeReq reqA = false ∧
    sessionTruthy (some "S1") = true ∧
    runRequest demoParse reqA ⟨some "S1", true⟩ [.resp ⟨404, [], ""⟩, eInitOK, eOK] =
      ⟨(reinitializeAndRetry demoParse reqA [eInitOK, eOK]).state,
       (reinitializeAndRetry demoParse reqA [eInitOK, eOK]).output,
       (reinitializeAndRetry demoParse reqA [eInitOK, eOK]).result,
       (reinitializeAndRetry demoParse reqA [eInitOK, eOK]).rest,
       (reinitializeAndRetry demoParse reqA [eInitOK, eOK]).recoveries + 1,
       (reinitializeAndRetry demoParse reqA [eInitOK, eOK]).calls + 1⟩ ∧
    runRequest demoParse reqA ⟨some "S1", true⟩ [.resp ⟨500, [], ""⟩] =
      ⟨⟨some "S1", true⟩, [], .error (httpErrorOf demoParse 500 ""), [], 0, 1⟩ :=
  ⟨by decide, by decide,
   C4_amended_404_recovery_guard.1 demoParse reqA ⟨some "S1", true⟩ ⟨404, [], ""⟩
     [eInitOK, eOK] (by decide) (by decide) rfl,
   C4_amended_404_recovery_guard.2 demoParse reqA ⟨some "S1", true⟩ ⟨500, [], ""⟩
     [] (by decide) (by decide) (by decide)⟩

/-- Claim C1 (counterexample): on the trace 404 / initialize-ok-with-header
/ 404 / initialize-ok-with-header / 200, one original request enters
recovery twice — the retried request's second 404, arriving while the
re-established session token is held, starts a further recovery instead of
propagating as a hard error.  Nothing tags the retried request. -/
theorem C1_counterexample_second_recovery :
    (runRequest demoParse reqA ⟨some "S2", true⟩ (badTrace 1)).recoveries = 2 ∧
    (runRequest demoParse reqA ⟨some "S2", true⟩ (badTrace 1)).result = .ok () :=
  ⟨rfl, rfl⟩

/-- Claim C1 (amended): recovery is re-attempted on every 404 received while
a session token is held — against a server that answers 404, then `n` times
(initialize-ok issuing a session id, then 404 again), then 200, the bridge
enters `reinitializeAndRetry` exactly `n + 1` times.  The number of
recoveries per original request is unbounded; recovery stops only when a
retry returns non-404, a 404 arrives with no session token held, or the
re-initialization itself fails. -/
theorem C1_amended_unbounded_recovery :
    ∀ n : Nat,
      (runRequest demoParse reqA ⟨some "S2", true⟩ (badTrace n)).recoveries = n + 1 := by
  intro n
  induction n with
  | zero => rfl
  | succ n ih =>
    have hstep : badTrace (n + 1) = e404 :: eInitOK :: badTrace n := rfl
    rw [hstep]
    have hcall : httpCall demoParse (isInitializeReq reqA) ⟨some "S2", true⟩ e404 =
        .recover := rfl
    rw [runRequest_recover_eq demoParse reqA ⟨some "S2", true⟩ e404
      (eInitOK :: badTrace n) hcall]
    have hinit : httpCall demoParse true ⟨none, false⟩ eInitOK =
        .done ⟨some "S2", true⟩ [] (.ok ()) := rfl
    simp only [reinitializeAndRetry, hinit]
    cases hr : (runRequest demoParse reqA ⟨some "S2", true⟩ (badTrace n)).result <;>
      simp [hr, ih]

end McpBridge
